import Mathlib

/-!
Verification of the smart-speaker control core.

Shallow embedding of the device state machine (`src/Main/core/state.py`,
`src/Main/core/actions.py`), the playback-confirmation tick
(`src/Main/core/controller.py`), the record-button handler
(`src/Main/core/controller.py` together with `src/Main/hardware/buttons.py`),
and the hardware-health tracker (`src/Main/utils/hardware_health.py`).

Modelling conventions:
* Python floats (timestamps, durations) become `ℚ`; every comparison in the
  source is an order comparison, so no floating-point rounding is relevant
  to the verified properties.
* Side effects on collaborators (audio engine, recorder, feedback sink,
  sounds, HTTP server) become an explicit trace: each transition returns the
  ordered `List Event` of collaborator calls it makes.  Logging calls are
  omitted from the trace (they carry no state and no claim mentions them).
* Results coming back from collaborators (catalog lookup, recorder start
  success, recorder stop path, HTTP status) become explicit parameters of
  the transition functions.
-/

namespace SmartSpeaker

/-- Device states, from `class State(Enum)` in `src/Main/core/state.py`. -/
inductive State where
  | idleNoChip
  | idleChipLoaded
  | playing
  | paused
  | recording
deriving DecidableEq

/-- Data of a loaded chip, from `@dataclass ChipData` in
`src/Main/core/state.py`.  The `metadata` dict is passed through opaquely;
the only key the core ever reads back from it is `'id'`
(in `action_voice_clear_assignment`), so the model keeps that lookup result
as `metaId` (`none` = key absent). -/
structure ChipData where
  uid : String := ""
  name : String := ""
  uri : String := ""
  metaId : Option String := none
deriving DecidableEq

/-- `@dataclass DeviceState` from `src/Main/core/state.py`. -/
structure DeviceState where
  state : State := State.idleNoChip
  loaded_chip : Option ChipData := none
  was_playing_before_recording : Bool := false
  previous_state : Option State := none
deriving DecidableEq

/-- Collaborator calls made by transitions (audio engine, recorder,
feedback sink `ui`, sound player, catalog server), in call order. -/
inductive Event where
  | audioPlayUri (uri : String)
  | audioPause
  | audioResume
  | audioStop
  | recorderStart (label : String)
  | recorderStop
  | recorderCancel
  | serverClearAssignment (id : String)
  | uiChipLoaded
  | uiPlay
  | uiPause
  | uiStop
  | uiClearChip
  | uiBlocked
  | uiError
  | uiRecordSaved
  | uiRecordCanceled
  | soundCountdown
  | soundStop
deriving DecidableEq

/-- The `chip_data` dict handed to `action_load_chip`; every key is read
with `.get(..., default)`, so all fields are optional. -/
structure ChipDict where
  uid : Option String := none
  name : Option String := none
  uri : Option String := none
  id : Option String := none
deriving DecidableEq

/-- A truthy catalog-lookup result used by `action_play`'s refresh
(`fresh_data['uid']`, `fresh_data['name']` are indexed directly, `uri` via
`.get`). -/
structure FreshDict where
  uid : String
  name : String
  uri : Option String := none
  id : Option String := none
deriving DecidableEq

/-- `action_load_chip` from `src/Main/core/actions.py`. -/
def action_load_chip (ds : DeviceState) (chip_data : ChipDict) :
    DeviceState × List Event :=
  let stopEvs :=
    if ds.state = State.playing ∨ ds.state = State.paused then [Event.audioStop] else []
  let chip : ChipData :=
    { uid := chip_data.uid.getD ""
      name := chip_data.name.getD "Unknown"
      uri := chip_data.uri.getD ""
      metaId := chip_data.id }
  ({ ds with
      loaded_chip := some chip
      state := State.idleChipLoaded
      was_playing_before_recording := false },
   stopEvs ++ [Event.uiChipLoaded])

/-- `action_play` from `src/Main/core/actions.py`.  `fresh` is the result of
the catalog refresh: `none` models "no chip store given, or
`chip_store.lookup` returned a falsy value" (both leave the cached chip in
place). -/
def action_play (ds : DeviceState) (fresh : Option FreshDict) :
    DeviceState × List Event :=
  match ds.loaded_chip with
  | none => (ds, [Event.uiBlocked])
  | some chip0 =>
    let chip : ChipData :=
      match fresh with
      | some fd => { uid := fd.uid, name := fd.name, uri := fd.uri.getD "", metaId := fd.id }
      | none => chip0
    if chip.uri = "" then
      ({ ds with loaded_chip := some chip }, [Event.uiBlocked])
    else
      ({ ds with loaded_chip := some chip, state := State.playing },
       [Event.audioPlayUri chip.uri, Event.uiPlay])

/-- `action_resume` from `src/Main/core/actions.py`. -/
def action_resume (ds : DeviceState) : DeviceState × List Event :=
  ({ ds with state := State.playing }, [Event.audioResume, Event.uiPlay])

/-- `action_pause` from `src/Main/core/actions.py`. -/
def action_pause (ds : DeviceState) : DeviceState × List Event :=
  ({ ds with state := State.paused }, [Event.audioPause, Event.uiPause])

/-- `action_stop` from `src/Main/core/actions.py`. -/
def action_stop (ds : DeviceState) : DeviceState × List Event :=
  ({ ds with
      state := if ds.loaded_chip.isSome then State.idleChipLoaded else State.idleNoChip },
   [Event.audioStop, Event.uiStop])

/-- `action_clear_chip` from `src/Main/core/actions.py`. -/
def action_clear_chip (ds : DeviceState) (long_press : Bool) :
    DeviceState × List Event :=
  ({ ds with
      loaded_chip := none
      state := State.idleNoChip
      was_playing_before_recording := false },
   [Event.audioStop, if long_press then Event.uiClearChip else Event.uiStop])

/-- `action_start_recording` from `src/Main/core/actions.py`; `rec_ok` is
the boolean returned by `recorder.start`. -/
def action_start_recording (ds : DeviceState) (rec_ok : Bool) :
    DeviceState × List Event :=
  match ds.loaded_chip with
  | none => (ds, [Event.uiBlocked])
  | some chip =>
    let was_playing := ds.state = State.playing
    let ds1 : DeviceState :=
      { ds with
          was_playing_before_recording :=
            ds.state = State.playing ∨ ds.state = State.paused
          previous_state := some ds.state }
    let pauseEvs := if was_playing then [Event.audioPause] else []
    if rec_ok then
      ({ ds1 with state := State.recording },
       pauseEvs ++ [Event.recorderStart chip.name])
    else
      ({ ds1 with was_playing_before_recording := false, previous_state := none },
       pauseEvs ++ [Event.recorderStart chip.name]
         ++ (if was_playing then [Event.audioResume] else []) ++ [Event.uiError])

/-- `action_save_recording` from `src/Main/core/actions.py`; `saved_path` is
the optional path returned by `recorder.stop`.  The file verification and
the HTTP library registration only log (or post to an external server) and
never touch `device_state`, so they do not appear in the state transition. -/
def action_save_recording (ds : DeviceState) (saved_path : Option String) :
    DeviceState × List Event :=
  ({ ds with
      state :=
        if ds.was_playing_before_recording then State.paused else State.idleChipLoaded
      was_playing_before_recording := false },
   [Event.recorderStop, Event.uiRecordSaved])

/-- `action_cancel_recording` from `src/Main/core/actions.py`. -/
def action_cancel_recording (ds : DeviceState) : DeviceState × List Event :=
  let target : State × List Event :=
    match ds.previous_state with
    | some State.playing => (State.playing, [Event.audioResume])
    | some State.paused => (State.paused, [])
    | _ => (State.idleChipLoaded, [])
  ({ ds with
      state := target.1
      was_playing_before_recording := false
      previous_state := none },
   [Event.recorderCancel] ++ target.2 ++ [Event.uiRecordCanceled])

/-- `action_cancel_recording_and_clear` from `src/Main/core/actions.py`. -/
def action_cancel_recording_and_clear (ds : DeviceState) :
    DeviceState × List Event :=
  ({ ds with
      loaded_chip := none
      state := State.idleNoChip
      was_playing_before_recording := false },
   [Event.recorderCancel, Event.audioStop, Event.uiClearChip])

/-- Python truthiness of the optional `metadata.get('id')` string. -/
def truthyId : Option String → Bool
  | none => false
  | some s => !(s == "")

/-- `action_voice_clear_assignment` from `src/Main/core/actions.py`;
`server` is the outcome of the DELETE request (`none` = request raised,
`some status` = HTTP status code). -/
def action_voice_clear_assignment (ds : DeviceState) (server : Option Nat) :
    DeviceState × List Event :=
  match ds.loaded_chip with
  | none => (ds, [Event.uiBlocked])
  | some chip =>
    let stopEvs :=
      if ds.state = State.playing ∨ ds.state = State.paused then [Event.audioStop] else []
    if truthyId chip.metaId then
      let reqEvs := [Event.serverClearAssignment (chip.metaId.getD "")]
      match server with
      | some status =>
        if status = 200 then
          ({ ds with
              loaded_chip := some { chip with uri := "" }
              state := State.idleChipLoaded },
           stopEvs ++ reqEvs ++ [Event.uiClearChip])
        else (ds, stopEvs ++ reqEvs ++ [Event.uiError])
      | none => (ds, stopEvs ++ reqEvs ++ [Event.uiError])
    else (ds, stopEvs ++ [Event.uiError])

/-- One public state-machine operation together with the collaborator
results it consumes (the arguments that are not part of `DeviceState`). -/
inductive OpCall where
  | loadChip (chip_data : ChipDict)
  | play (fresh : Option FreshDict)
  | resume
  | pause
  | stop
  | clearChip (long_press : Bool)
  | startRecording (rec_ok : Bool)
  | saveRecording (saved_path : Option String)
  | cancelRecording
  | cancelRecordingAndClear
  | clearAssignment (server : Option Nat)
deriving DecidableEq

/-- Dispatch of a public operation to its handler in
`src/Main/core/actions.py`. -/
def applyOp (ds : DeviceState) : OpCall → DeviceState × List Event
  | OpCall.loadChip cd => action_load_chip ds cd
  | OpCall.play fresh => action_play ds fresh
  | OpCall.resume => action_resume ds
  | OpCall.pause => action_pause ds
  | OpCall.stop => action_stop ds
  | OpCall.clearChip lp => action_clear_chip ds lp
  | OpCall.startRecording ok => action_start_recording ds ok
  | OpCall.saveRecording p => action_save_recording ds p
  | OpCall.cancelRecording => action_cancel_recording ds
  | OpCall.cancelRecordingAndClear => action_cancel_recording_and_clear ds
  | OpCall.clearAssignment sv => action_voice_clear_assignment ds sv

/-- The chip/state invariant from the spec:
`loadedChip == none ⇔ state == IdleNoChip`. -/
def chipStateInv (ds : DeviceState) : Prop :=
  ds.loaded_chip = none ↔ ds.state = State.idleNoChip

instance decChipStateInv (ds : DeviceState) : Decidable (chipStateInv ds) := by
  unfold chipStateInv; infer_instance

/-- The states from which the controller actually invokes
`Resume`/`Pause`/`SaveRecording`/`CancelRecording` all differ from
`IdleNoChip`; those four handlers do not themselves re-check the chip, so
the invariant is only preserved under this guard.  The remaining seven
operations need no guard. -/
def opGuard (ds : DeviceState) : OpCall → Prop
  | OpCall.resume => ds.state ≠ State.idleNoChip
  | OpCall.pause => ds.state ≠ State.idleNoChip
  | OpCall.saveRecording _ => ds.state ≠ State.idleNoChip
  | OpCall.cancelRecording => ds.state ≠ State.idleNoChip
  | _ => True

instance decOpGuard (ds : DeviceState) (op : OpCall) : Decidable (opGuard ds op) := by
  cases op <;> (unfold opGuard; infer_instance)

/-- Engine (audio) calls within a trace, for the "resume the engine iff"
claims. -/
def isEngineCall : Event → Bool
  | Event.audioPlayUri _ => true
  | Event.audioPause => true
  | Event.audioResume => true
  | Event.audioStop => true
  | _ => false

/-! ## Hardware health tracker, `src/Main/utils/hardware_health.py` -/

/-- `class ComponentStatus(Enum)`. -/
inductive ComponentStatus where
  | healthy
  | degraded
  | failed
  | notAvailable
deriving DecidableEq

/-- `class ComponentTracker` state.  Error texts and the expected-error
patterns are character lists so that Python's substring test `expected in
error_msg` becomes `List.isInfixOf`. -/
structure ComponentTracker where
  name : String
  expected_errors : List (List Char)
  log_interval : ℚ
  failure_threshold : ℕ
  degraded_threshold : ℕ
  status : ComponentStatus
  consecutive_errors : ℕ
  total_errors : ℕ
  last_error : Option (List Char)
  last_error_log_time : ℚ
  last_success_time : Option ℚ
  failed_logged : Bool
deriving DecidableEq

/-- `ComponentTracker.__init__` (the `expected_errors or []` default
included). -/
def ComponentTracker.mk_init (name : String)
    (expected_errors : Option (List (List Char))) (log_interval : ℚ)
    (failure_threshold degraded_threshold : ℕ) : ComponentTracker :=
  { name := name
    expected_errors := expected_errors.getD []
    log_interval := log_interval
    failure_threshold := failure_threshold
    degraded_threshold := degraded_threshold
    status := ComponentStatus.healthy
    consecutive_errors := 0
    total_errors := 0
    last_error := none
    last_error_log_time := 0
    last_success_time := none
    failed_logged := false }

/-- Python's substring containment `pat in s` on character lists: `pat`
occurs contiguously in `s`. -/
def substrOf (pat : List Char) : List Char → Bool
  | [] => pat.isEmpty
  | c :: rest => pat.isPrefixOf (c :: rest) || substrOf pat rest

/-- `ComponentTracker._is_expected_error`. -/
def ComponentTracker.is_expected_error (t : ComponentTracker)
    (error_msg : List Char) : Bool :=
  t.expected_errors.any fun expected => substrOf expected error_msg

/-- `ComponentTracker.report_success`. -/
def ComponentTracker.report_success (t : ComponentTracker) (now : ℚ) :
    ComponentTracker :=
  let t1 := { t with
    consecutive_errors := 0
    last_success_time := some now
    failed_logged := false }
  if t1.status = ComponentStatus.degraded then
    { t1 with status := ComponentStatus.healthy }
  else t1

/-- `ComponentTracker.report_error`; returns the `shouldLog` boolean and
the updated tracker. -/
def ComponentTracker.report_error (t : ComponentTracker) (error : List Char)
    (now : ℚ) : Bool × ComponentTracker :=
  let t1 := { t with
    consecutive_errors := t.consecutive_errors + 1
    total_errors := t.total_errors + 1
    last_error := some error }
  let t2 :=
    if t1.consecutive_errors ≥ t1.failure_threshold then
      { t1 with status := ComponentStatus.failed }
    else if t1.consecutive_errors ≥ t1.degraded_threshold then
      (if t1.status = ComponentStatus.healthy then
        { t1 with status := ComponentStatus.degraded }
      else t1)
    else t1
  if t2.is_expected_error error then (false, t2)
  else if now - t2.last_error_log_time < t2.log_interval then (false, t2)
  else (true, { t2 with last_error_log_time := now })

/-- `ComponentTracker.reset`. -/
def ComponentTracker.reset (t : ComponentTracker) : ComponentTracker :=
  { t with
    status := ComponentStatus.healthy
    consecutive_errors := 0
    failed_logged := false }

/-- A report call arriving at a tracker (no explicit `reset`). -/
inductive HealthCall where
  | success (now : ℚ)
  | error (msg : List Char) (now : ℚ)
deriving DecidableEq

def applyHealthCall (t : ComponentTracker) : HealthCall → ComponentTracker
  | HealthCall.success now => t.report_success now
  | HealthCall.error msg now => (t.report_error msg now).2

def applyHealthCalls (t : ComponentTracker) (cs : List HealthCall) :
    ComponentTracker :=
  cs.foldl applyHealthCall t

/-- `HardwareHealthManager.register`: the component dictionary is an
association list keyed by component name. -/
def register (components : List (String × ComponentTracker)) (name : String)
    (expected_errors : Option (List (List Char))) (log_interval : ℚ)
    (failure_threshold degraded_threshold : ℕ) :
    ComponentTracker × List (String × ComponentTracker) :=
  match components.lookup name with
  | some t => (t, components)
  | none =>
    let t := ComponentTracker.mk_init name expected_errors log_interval
      failure_threshold degraded_threshold
    (t, (name, t) :: components)

/-! ## Playback confirmation tracking, `src/Main/core/controller.py` -/

/-- `MAX_WAIT_FOR_PLAYBACK` from `src/Main/config/settings.py`. -/
def MAX_WAIT_FOR_PLAYBACK : ℚ := 60

/-- `MIN_PLAYBACK_DURATION` from `src/Main/config/settings.py`. -/
def MIN_PLAYBACK_DURATION : ℚ := 2

/-- `RECORD_HOLD_DURATION` from `src/Main/config/settings.py`. -/
def RECORD_HOLD_DURATION : ℚ := 5

/-- The controller's playback tracking fields (`_play_initiated_time`,
`_playback_confirmed`, `_playback_confirmed_time`). -/
structure PlaybackTracking where
  play_initiated_time : Option ℚ := none
  playback_confirmed : Bool := false
  playback_confirmed_time : Option ℚ := none
deriving DecidableEq

/-- `Controller._reset_playback_tracking`. -/
def reset_playback_tracking : PlaybackTracking :=
  { play_initiated_time := none
    playback_confirmed := false
    playback_confirmed_time := none }

/-- `Controller._check_playback_finished`, one tick.  `is_playing_fresh`
is the engine answer to the forced status query of Phase 1,
`is_playing_cached` the cached answer used in Phase 2; `now` is
`time.time()` at the top of the call. -/
def check_playback_finished (ds : DeviceState) (tr : PlaybackTracking)
    (is_playing_fresh is_playing_cached : Bool) (now : ℚ) :
    DeviceState × PlaybackTracking × List Event :=
  if ds.state ≠ State.playing then (ds, tr, [])
  else if tr.playback_confirmed = false then
    -- Phase 1: wait for the engine to confirm playback
    if is_playing_fresh then
      (ds, { tr with playback_confirmed := true, playback_confirmed_time := some now }, [])
    else
      match tr.play_initiated_time with
      | some t0 =>
        if now - t0 > MAX_WAIT_FOR_PLAYBACK then
          ({ ds with
              state :=
                if ds.loaded_chip.isSome then State.idleChipLoaded else State.idleNoChip },
           reset_playback_tracking, [Event.uiError])
        else (ds, tr, [])
      | none => (ds, tr, [])
  else
    -- Phase 2: confirmed, watch for the natural end
    if is_playing_cached then (ds, tr, [])
    else
      let finished : DeviceState × PlaybackTracking × List Event :=
        ({ ds with
            state :=
              if ds.loaded_chip.isSome then State.idleChipLoaded else State.idleNoChip },
         reset_playback_tracking, [Event.uiStop])
      match tr.playback_confirmed_time with
      | some ct =>
        if now - ct < MIN_PLAYBACK_DURATION then
          (ds, { tr with playback_confirmed := false, playback_confirmed_time := none }, [])
        else finished
      | none => finished

/-! ## Record button handling

`Buttons` (`src/Main/hardware/buttons.py`) projected to the RECORD entry of
its per-button dictionary, and `Controller._handle_record_button`
(`src/Main/core/controller.py`).  The source calls `time.time()` once in
`Buttons.update` and again inside the handler; the model uses one `now` per
tick (the sub-tick drift between the two reads is not observable by any
claim). -/

/-- `@dataclass ButtonState` from `src/Main/hardware/buttons.py`. -/
structure ButtonState where
  is_pressed : Bool := false
  press_start_time : ℚ := 0
  was_pressed : Bool := false
deriving DecidableEq

/-- The per-button body of `Buttons.update` (shift `was_pressed`, record the
new sample, stamp `press_start_time` on a rising edge). -/
def button_update (b : ButtonState) (pressed : Bool) (now : ℚ) : ButtonState :=
  { is_pressed := pressed
    was_pressed := b.is_pressed
    press_start_time := if pressed && !b.is_pressed then now else b.press_start_time }

/-- `Buttons.just_pressed`. -/
def just_pressed (b : ButtonState) : Bool := b.is_pressed && !b.was_pressed

/-- `Buttons.just_released`. -/
def just_released (b : ButtonState) : Bool := !b.is_pressed && b.was_pressed

/-- `Buttons.hold_duration`. -/
def hold_duration (b : ButtonState) (now : ℚ) : ℚ :=
  if b.is_pressed then now - b.press_start_time else 0

/-- The slice of `Controller` state that the record-button handler touches:
the device state, the RECORD button sample, and the two one-shot gesture
flags `_record_armed` and `_countdown_played`. -/
structure RecCtrl where
  device_state : DeviceState
  record_btn : ButtonState
  record_armed : Bool
  countdown_played : Bool
deriving DecidableEq

/-- `Controller._handle_record_button`.  `state` is the snapshot taken at
the top of `_handle_buttons`; `rec_ok` and `saved_path` are the recorder
results consumed if `action_start_recording` / `action_save_recording`
fire this tick. -/
def handle_record_button (c : RecCtrl) (state : State) (now : ℚ)
    (rec_ok : Bool) (saved_path : Option String) : RecCtrl × List Event :=
  if state = State.idleNoChip then
    (c, if just_released c.record_btn then [Event.uiBlocked] else [])
  else if state = State.recording then
    if just_pressed c.record_btn then
      let r := action_save_recording c.device_state saved_path
      ({ c with device_state := r.1 }, r.2)
    else (c, [])
  else
    let step1 : RecCtrl × List Event :=
      if c.record_btn.is_pressed then
        let hold := hold_duration c.record_btn now
        let cue : RecCtrl × List Event :=
          if hold > 1/10 ∧ c.countdown_played = false then
            ({ c with countdown_played := true }, [Event.soundCountdown])
          else (c, [])
        if hold ≥ RECORD_HOLD_DURATION ∧ cue.1.record_armed = false then
          let r := action_start_recording cue.1.device_state rec_ok
          ({ cue.1 with
              record_armed := true
              countdown_played := false
              device_state := r.1 },
           cue.2 ++ [Event.soundStop] ++ r.2)
        else cue
      else (c, [])
    let c2 := step1.1
    let step2 : RecCtrl × List Event :=
      if just_released c2.record_btn then
        if c2.record_armed = false then
          ({ c2 with countdown_played := false },
           if c2.countdown_played then [Event.soundStop] else [])
        else ({ c2 with countdown_played := false }, [])
      else (c2, [])
    let c3 := step2.1
    let c4 :=
      if c3.record_btn.is_pressed = false ∧ state ≠ State.recording then
        { c3 with record_armed := false, countdown_played := false }
      else c3
    (c4, step1.2 ++ step2.2)

/-- One tick of the record-button input: the button inputs sampled by
`Buttons.update`, the time, and the recorder results for this tick. -/
structure TickIn where
  pressed : Bool
  now : ℚ
  rec_ok : Bool := true
  saved_path : Option String := none
deriving DecidableEq

/-- One loop iteration restricted to the record button:
`Buttons.update` then `_handle_record_button` with the device-state
snapshot. -/
def record_tick (c : RecCtrl) (i : TickIn) : RecCtrl × List Event :=
  let b := button_update c.record_btn i.pressed i.now
  handle_record_button { c with record_btn := b } c.device_state.state
    i.now i.rec_ok i.saved_path

/-- Run a sequence of record-button ticks, concatenating the event traces. -/
def record_run (c : RecCtrl) : List TickIn → RecCtrl × List Event
  | [] => (c, [])
  | i :: rest =>
    let r := record_tick c i
    let r2 := record_run r.1 rest
    (r2.1, r.2 ++ r2.2)

/-- Recognize the start-recording firing (the `recorder.start` call). -/
def is_rec_start : Event → Bool
  | Event.recorderStart _ => true
  | _ => false

/-- How many times start-recording fired in a trace. -/
def startRecCount (evs : List Event) : ℕ := evs.countP is_rec_start

/-! ## Concrete fixtures used by witnesses -/

/-- A chip with a song assigned. -/
def chip0 : ChipData :=
  { uid := "u1", name := "song", uri := "spotify:track:1", metaId := some "7" }

/-- A device in the middle of a recording started from `Playing`. -/
def recChipDS : DeviceState :=
  { state := State.recording
    loaded_chip := some chip0
    was_playing_before_recording := true
    previous_state := some State.playing }

/-! ## Theorems -/

/-- C2: cancelling from Recording restores exactly the captured
`previousState` (engine resumed iff it was `Playing`, no engine call when
`Paused`), and clears `wasPlayingBeforeRecording` and `previousState`. -/
theorem cancel_recording_restores_previous_exactly (ds : DeviceState) (p : State)
    (hrec : ds.state = State.recording)
    (hprev : ds.previous_state = some p)
    (hp : p = State.playing ∨ p = State.paused ∨ p = State.idleChipLoaded) :
    (action_cancel_recording ds).1.state = p ∧
    (action_cancel_recording ds).1.was_playing_before_recording = false ∧
    (action_cancel_recording ds).1.previous_state = none ∧
    (action_cancel_recording ds).2.filter isEngineCall =
      (if p = State.playing then [Event.audioResume] else []) := by
  rcases hp with rfl | rfl | rfl <;>
    simp [action_cancel_recording, hprev, isEngineCall]

theorem cancel_recording_restores_previous_exactly_witness :
    (action_cancel_recording recChipDS).1.state = State.playing ∧
    (action_cancel_recording recChipDS).1.was_playing_before_recording = false ∧
    (action_cancel_recording recChipDS).1.previous_state = none ∧
    (action_cancel_recording recChipDS).2.filter isEngineCall =
      (if State.playing = State.playing then [Event.audioResume] else []) :=
  cancel_recording_restores_previous_exactly recChipDS State.playing
    (by decide) (by decide) (by decide)

/-- C3: a failed `StartRecording` (recorder refuses) rolls back: state
unchanged, both recording flags cleared, the engine paused-then-resumed iff
the state was `Playing`, and an error signalled. -/
theorem start_recording_failure_rolls_back (ds : DeviceState) (c : ChipData)
    (hchip : ds.loaded_chip = some c) :
    (action_start_recording ds false).1.state = ds.state ∧
    (action_start_recording ds false).1.was_playing_before_recording = false ∧
    (action_start_recording ds false).1.previous_state = none ∧
    ((action_start_recording ds false).2.filter isEngineCall =
      if ds.state = State.playing then [Event.audioPause, Event.audioResume] else []) ∧
    Event.uiError ∈ (action_start_recording ds false).2 := by
  by_cases hpl : ds.state = State.playing <;>
    simp [action_start_recording, hchip, hpl, isEngineCall]

theorem start_recording_failure_rolls_back_witness :
    (action_start_recording ⟨State.playing, some chip0, false, none⟩ false).1.state =
      (⟨State.playing, some chip0, false, none⟩ : DeviceState).state ∧
    (action_start_recording ⟨State.playing, some chip0, false, none⟩ false).1.was_playing_before_recording = false ∧
    (action_start_recording ⟨State.playing, some chip0, false, none⟩ false).1.previous_state = none ∧
    ((action_start_recording ⟨State.playing, some chip0, false, none⟩ false).2.filter isEngineCall =
      if (⟨State.playing, some chip0, false, none⟩ : DeviceState).state = State.playing then
        [Event.audioPause, Event.audioResume] else []) ∧
    Event.uiError ∈ (action_start_recording ⟨State.playing, some chip0, false, none⟩ false).2 :=
  start_recording_failure_rolls_back ⟨State.playing, some chip0, false, none⟩ chip0 rfl

/-- C4 counterexample: from Recording, `SaveRecording` completes with
`previousState` still set (the claim says every path leaving Recording
clears it). -/
theorem save_recording_leaves_previous_state :
    recChipDS.state = State.recording ∧
    (action_save_recording recChipDS (some "p")).1.previous_state = some State.playing := by
  decide

/-- C4 (amended): `previousState` is cleared by `CancelRecording`, while
`SaveRecording` leaves it unchanged (it is only overwritten at the next
`StartRecording`). -/
theorem previous_state_cleared_by_cancel_not_save (ds : DeviceState)
    (path : Option String) (hrec : ds.state = State.recording) :
    (action_cancel_recording ds).1.previous_state = none ∧
    (action_save_recording ds path).1.previous_state = ds.previous_state :=
  ⟨rfl, rfl⟩

theorem previous_state_cleared_by_cancel_not_save_witness :
    (action_cancel_recording recChipDS).1.previous_state = none ∧
    (action_save_recording recChipDS (some "p")).1.previous_state = recChipDS.previous_state :=
  previous_state_cleared_by_cancel_not_save recChipDS (some "p") (by decide)

/-- C10: registering an already-registered component name returns the
stored tracker and ignores the new policy parameters; the component map is
unchanged. -/
theorem register_idempotent (m : List (String × ComponentTracker)) (name : String)
    (e1 e2 : Option (List (List Char))) (li1 li2 : ℚ) (f1 d1 f2 d2 : ℕ) :
    register (register m name e1 li1 f1 d1).2 name e2 li2 f2 d2 =
      ((register m name e1 li1 f1 d1).1, (register m name e1 li1 f1 d1).2) := by
  unfold register
  cases h : m.lookup name with
  | some t => simp [h]
  | none => simp [h, List.lookup]

/-- C7: every `ReportError` call increments both counters; it returns
`false` and leaves the log timestamp alone when the error text contains an
expected pattern or less than `logInterval` elapsed since the last logged
error, and otherwise returns `true` and stamps the log time. -/
theorem report_error_increments_and_gates_logging (t : ComponentTracker)
    (err : List Char) (now : ℚ) :
    (t.report_error err now).2.consecutive_errors = t.consecutive_errors + 1 ∧
    (t.report_error err now).2.total_errors = t.total_errors + 1 ∧
    (t.is_expected_error err = true ∨ now - t.last_error_log_time < t.log_interval →
      (t.report_error err now).1 = false ∧
      (t.report_error err now).2.last_error_log_time = t.last_error_log_time) ∧
    (t.is_expected_error err = false →
      ¬ now - t.last_error_log_time < t.log_interval →
      (t.report_error err now).1 = true ∧
      (t.report_error err now).2.last_error_log_time = now) := by
  unfold ComponentTracker.report_error ComponentTracker.is_expected_error
  dsimp only
  split_ifs <;> simp_all

/-- A tracker in the `Failed` state used to witness the circuit-breaker
claims. -/
def tFailed : ComponentTracker :=
  { name := "nfc"
    expected_errors := ["busy".toList]
    log_interval := 5
    failure_threshold := 20
    degraded_threshold := 3
    status := ComponentStatus.failed
    consecutive_errors := 21
    total_errors := 30
    last_error := none
    last_error_log_time := 0
    last_success_time := none
    failed_logged := true }

theorem report_error_increments_and_gates_logging_witness :
    (tFailed.report_error "boom".toList 10).2.consecutive_errors =
      tFailed.consecutive_errors + 1 ∧
    (tFailed.report_error "boom".toList 10).1 = true ∧
    (tFailed.report_error "boom".toList 10).2.last_error_log_time = 10 := by
  have h := report_error_increments_and_gates_logging tFailed "boom".toList 10
  have hexp : tFailed.is_expected_error "boom".toList = false := by decide
  have hthr : ¬ (10:ℚ) - tFailed.last_error_log_time < tFailed.log_interval := by
    norm_num [tFailed]
  exact ⟨h.1, (h.2.2.2 hexp hthr).1, (h.2.2.2 hexp hthr).2⟩

/-- One report call keeps a `Failed` tracker `Failed`. -/
theorem status_failed_step (t : ComponentTracker) (c : HealthCall)
    (h : t.status = ComponentStatus.failed) :
    (applyHealthCall t c).status = ComponentStatus.failed := by
  cases c with
  | success now =>
    simp [applyHealthCall, ComponentTracker.report_success, h]
  | error msg now =>
    unfold applyHealthCall ComponentTracker.report_error
    dsimp only
    split_ifs <;> simp_all

/-- C8: `ReportSuccess` zeroes the consecutive-error count and heals a
`Degraded` tracker but never changes `Failed`; under any sequence of
report calls a `Failed` tracker stays `Failed`, and only `Reset` forces it
back to `Healthy`. -/
theorem failed_status_sticky_until_reset (t : ComponentTracker) (now : ℚ)
    (cs : List HealthCall) :
    (t.report_success now).consecutive_errors = 0 ∧
    (t.status = ComponentStatus.degraded →
      (t.report_success now).status = ComponentStatus.healthy) ∧
    (t.status = ComponentStatus.failed →
      (t.report_success now).status = ComponentStatus.failed) ∧
    (t.status = ComponentStatus.failed →
      (applyHealthCalls t cs).status = ComponentStatus.failed) ∧
    t.reset.status = ComponentStatus.healthy := by
  refine ⟨?_, ?_, ?_, ?_, rfl⟩
  · simp [ComponentTracker.report_success]
    split_ifs <;> rfl
  · intro h; simp [ComponentTracker.report_success, h]
  · intro h; simp [ComponentTracker.report_success, h]
  · induction cs generalizing t with
    | nil => intro h; simpa [applyHealthCalls] using h
    | cons c rest ih =>
      intro h
      have hstep := status_failed_step t c h
      simpa [applyHealthCalls] using ih (applyHealthCall t c) hstep

theorem failed_status_sticky_until_reset_witness :
    (tFailed.report_success 1).consecutive_errors = 0 ∧
    (applyHealthCalls tFailed
      [HealthCall.success 1, HealthCall.error "x".toList 2,
       HealthCall.success 3]).status = ComponentStatus.failed ∧
    tFailed.reset.status = ComponentStatus.healthy := by
  have h := failed_status_sticky_until_reset tFailed 1
    [HealthCall.success 1, HealthCall.error "x".toList 2, HealthCall.success 3]
  exact ⟨h.1, h.2.2.2.1 (by decide), h.2.2.2.2⟩

/-- C5: in Phase 1, a fresh not-playing answer past the max-wait timeout
clears all three tracker fields, moves the state machine to the
chip-dependent idle state, and signals error exactly once. -/
theorem playback_startup_timeout_resets_and_errors (ds : DeviceState)
    (tr : PlaybackTracking) (cached : Bool) (t0 now : ℚ)
    (hst : ds.state = State.playing)
    (hconf : tr.playback_confirmed = false)
    (hinit : tr.play_initiated_time = some t0)
    (htime : now - t0 > MAX_WAIT_FOR_PLAYBACK) :
    check_playback_finished ds tr false cached now =
      ({ ds with
          state :=
            if ds.loaded_chip.isSome then State.idleChipLoaded else State.idleNoChip },
       { play_initiated_time := none
         playback_confirmed := false
         playback_confirmed_time := none },
       [Event.uiError]) := by
  simp [check_playback_finished, hst, hconf, hinit, reset_playback_tracking,
    if_pos htime]

theorem playback_startup_timeout_resets_and_errors_witness :
    check_playback_finished ⟨State.playing, some chip0, false, none⟩
        ⟨some 0, false, none⟩ false true 61 =
      ({ (⟨State.playing, some chip0, false, none⟩ : DeviceState) with
          state :=
            if (some chip0 : Option ChipData).isSome then State.idleChipLoaded
            else State.idleNoChip },
       { play_initiated_time := none
         playback_confirmed := false
         playback_confirmed_time := none },
       [Event.uiError]) :=
  playback_startup_timeout_resets_and_errors ⟨State.playing, some chip0, false, none⟩
    ⟨some 0, false, none⟩ true 0 61 rfl rfl rfl (by norm_num [MAX_WAIT_FOR_PLAYBACK])

/-- C6: in Phase 2, a reported stop earlier than the minimum sustained
duration is a blip: only `confirmed`/`confirmedTime` are cleared —
`playInitiatedTime`, the device state and the loaded chip are untouched and
no finished/stop signal fires. -/
theorem playback_blip_clears_only_confirmation (ds : DeviceState)
    (tr : PlaybackTracking) (fresh : Bool) (ct now : ℚ)
    (hst : ds.state = State.playing)
    (hconf : tr.playback_confirmed = true)
    (hct : tr.playback_confirmed_time = some ct)
    (hdur : now - ct < MIN_PLAYBACK_DURATION) :
    check_playback_finished ds tr fresh false now =
      (ds, { tr with playback_confirmed := false, playback_confirmed_time := none }, []) := by
  simp [check_playback_finished, hst, hconf, hct, if_pos hdur]

theorem playback_blip_clears_only_confirmation_witness :
    check_playback_finished ⟨State.playing, some chip0, false, none⟩
        ⟨some 0, true, some 10⟩ true false 11 =
      (⟨State.playing, some chip0, false, none⟩,
       { (⟨some 0, true, some 10⟩ : PlaybackTracking) with
          playback_confirmed := false
          playback_confirmed_time := none },
       []) :=
  playback_blip_clears_only_confirmation ⟨State.playing, some chip0, false, none⟩
    ⟨some 0, true, some 10⟩ true 10 11 rfl rfl rfl
    (by norm_num [MIN_PLAYBACK_DURATION])

/-- The initial device state: `IdleNoChip`, no chip. -/
def dsIdle : DeviceState :=
  { state := State.idleNoChip
    loaded_chip := none
    was_playing_before_recording := false
    previous_state := none }

/-- A paused device with a chip loaded. -/
def dsPaused : DeviceState :=
  { state := State.paused
    loaded_chip := some chip0
    was_playing_before_recording := false
    previous_state := none }

/-- C1 counterexample: `Resume` invoked on the (invariant-satisfying)
`IdleNoChip` state yields `Playing` with no chip, breaking
`loadedChip == none ⇔ state == IdleNoChip`. -/
theorem resume_breaks_chip_state_inv_from_idle :
    chipStateInv dsIdle ∧ ¬ chipStateInv (applyOp dsIdle OpCall.resume).1 := by
  decide

/-- A state with no chip entails a state with a chip under the invariant. -/
theorem chip_some_of_inv {ds : DeviceState} (hinv : chipStateInv ds)
    {c : ChipData} (hc : ds.loaded_chip = some c) :
    ds.state ≠ State.idleNoChip := by
  intro h
  rw [hinv.mpr h] at hc
  exact Option.noConfusion hc

/-- C1 (amended): every public operation preserves
`loadedChip == none ⇔ state == IdleNoChip`, provided
`Resume`/`Pause`/`SaveRecording`/`CancelRecording` are invoked from a state
other than `IdleNoChip` (which the controller guarantees: it only calls
them from `Paused`, `Playing` and `Recording` respectively). -/
theorem guarded_ops_preserve_chip_state_inv (ds : DeviceState) (op : OpCall)
    (hg : opGuard ds op) (hinv : chipStateInv ds) :
    chipStateInv (applyOp ds op).1 := by
  cases op with
  | loadChip cd =>
    simp [applyOp, action_load_chip, chipStateInv]
  | play fresh =>
    cases hc : ds.loaded_chip with
    | none => simpa [applyOp, action_play, hc] using hinv
    | some chip0 =>
      have hs := chip_some_of_inv hinv hc
      cases fresh with
      | none =>
        by_cases hu : chip0.uri = "" <;>
          simp [applyOp, action_play, hc, hu, chipStateInv, hs]
      | some fd =>
        by_cases hu : fd.uri.getD "" = "" <;>
          simp [applyOp, action_play, hc, hu, chipStateInv, hs]
  | resume =>
    simp only [opGuard] at hg
    simp only [applyOp, action_resume, chipStateInv]
    simp only [show State.playing ≠ State.idleNoChip from fun h => State.noConfusion h,
      iff_false]
    exact fun h => hg (hinv.mp h)
  | pause =>
    simp only [opGuard] at hg
    simp only [applyOp, action_pause, chipStateInv]
    simp only [show State.paused ≠ State.idleNoChip from fun h => State.noConfusion h,
      iff_false]
    exact fun h => hg (hinv.mp h)
  | stop =>
    cases hc : ds.loaded_chip <;> simp [applyOp, action_stop, hc, chipStateInv]
  | clearChip lp =>
    simp [applyOp, action_clear_chip, chipStateInv]
  | startRecording ok =>
    cases hc : ds.loaded_chip with
    | none => simpa [applyOp, action_start_recording, hc] using hinv
    | some c =>
      have hs := chip_some_of_inv hinv hc
      cases ok <;> simp [applyOp, action_start_recording, hc, chipStateInv, hs]
  | saveRecording p =>
    simp only [opGuard] at hg
    have hchip : ds.loaded_chip ≠ none := fun h => hg (hinv.mp h)
    cases hw : ds.was_playing_before_recording <;>
      simp [applyOp, action_save_recording, hw, chipStateInv, hchip]
  | cancelRecording =>
    simp only [opGuard] at hg
    have hchip : ds.loaded_chip ≠ none := fun h => hg (hinv.mp h)
    rcases hp : ds.previous_state with _ | p
    · simp [applyOp, action_cancel_recording, hp, chipStateInv, hchip]
    · cases p <;> simp [applyOp, action_cancel_recording, hp, chipStateInv, hchip]
  | cancelRecordingAndClear =>
    simp [applyOp, action_cancel_recording_and_clear, chipStateInv]
  | clearAssignment sv =>
    cases hc : ds.loaded_chip with
    | none => simpa [applyOp, action_voice_clear_assignment, hc] using hinv
    | some c =>
      have hs := chip_some_of_inv hinv hc
      rcases sv with _ | status
      · by_cases hid : truthyId c.metaId = true <;>
          simp [applyOp, action_voice_clear_assignment, hc, hid, chipStateInv, hs]
      · by_cases hid : truthyId c.metaId = true
        · by_cases h200 : status = 200 <;>
            simp [applyOp, action_voice_clear_assignment, hc, hid, h200,
              chipStateInv, hs]
        · simp [applyOp, action_voice_clear_assignment, hc, hid, chipStateInv, hs]

theorem guarded_ops_preserve_chip_state_inv_witness :
    chipStateInv (applyOp dsPaused OpCall.resume).1 :=
  guarded_ops_preserve_chip_state_inv dsPaused OpCall.resume (by decide) (by decide)

/-! ## Record-button hold-to-arm lemmas (claim C9) -/

/-- The states in which the hold-to-arm branch of the record handler runs
with a chance of firing: outside `Recording` and outside `IdleNoChip`. -/
def armState (s : State) : Prop :=
  s = State.idleChipLoaded ∨ s = State.playing ∨ s = State.paused

instance decArmState (s : State) : Decidable (armState s) := by
  unfold armState; infer_instance

theorem start_recording_chip_preserved (ds : DeviceState) (ok : Bool) :
    (action_start_recording ds ok).1.loaded_chip = ds.loaded_chip := by
  cases hc : ds.loaded_chip <;> cases ok <;>
    simp [action_start_recording, hc]

theorem start_recording_state_cases (ds : DeviceState) (ok : Bool) :
    (action_start_recording ds ok).1.state = State.recording ∨
    (action_start_recording ds ok).1.state = ds.state := by
  cases hc : ds.loaded_chip <;> cases ok <;>
    simp [action_start_recording, hc]

theorem start_recording_fires_once (ds : DeviceState) (c : ChipData) (ok : Bool)
    (hc : ds.loaded_chip = some c) :
    startRecCount (action_start_recording ds ok).2 = 1 := by
  by_cases hpl : ds.state = State.playing <;> cases ok <;>
    simp [action_start_recording, hc, hpl, startRecCount, is_rec_start,
      List.countP_append, List.countP_cons]

/-- The first tick of a press cycle (rising edge): stamps the press time,
changes nothing else, fires nothing (the hold duration is 0). -/
theorem record_tick_first (c : RecCtrl) (i : TickIn)
    (hb : c.record_btn.is_pressed = false)
    (hs1 : c.device_state.state ≠ State.idleNoChip)
    (hs2 : c.device_state.state ≠ State.recording)
    (hip : i.pressed = true) :
    record_tick c i = ({ c with record_btn := ⟨true, i.now, false⟩ }, []) := by
  unfold record_tick button_update handle_record_button
  simp [hb, hip, hs1, hs2, just_pressed, just_released, hold_duration,
    RECORD_HOLD_DURATION]
  norm_num

/-- A held tick while already in `Recording`: nothing happens. -/
theorem record_tick_held_recording (c : RecCtrl) (i : TickIn)
    (hb : c.record_btn.is_pressed = true)
    (hs : c.device_state.state = State.recording)
    (hip : i.pressed = true) :
    record_tick c i =
      ({ c with record_btn := ⟨true, c.record_btn.press_start_time, true⟩ }, []) := by
  unfold record_tick button_update handle_record_button
  simp [hb, hip, hs, just_pressed]

/-- A held tick in an arm state, not yet armed, below the threshold: the
device state is untouched, the tracker stays unarmed, and nothing fires
(at most the advisory cue plays). -/
theorem record_tick_held_low (c : RecCtrl) (i : TickIn) (t1 : ℚ)
    (hb : c.record_btn.is_pressed = true)
    (hps : c.record_btn.press_start_time = t1)
    (ha : c.record_armed = false)
    (hs : armState c.device_state.state)
    (hip : i.pressed = true)
    (hlow : i.now - t1 < RECORD_HOLD_DURATION) :
    (record_tick c i).1.device_state = c.device_state ∧
    (record_tick c i).1.record_armed = false ∧
    (record_tick c i).1.record_btn.is_pressed = true ∧
    (record_tick c i).1.record_btn.press_start_time = t1 ∧
    startRecCount (record_tick c i).2 = 0 := by
  have hs1 : c.device_state.state ≠ State.idleNoChip := by
    rcases hs with h | h | h <;> simp [h]
  have hs2 : c.device_state.state ≠ State.recording := by
    rcases hs with h | h | h <;> simp [h]
  have hnotarm : ¬ RECORD_HOLD_DURATION ≤ i.now - t1 := not_le.mpr hlow
  unfold record_tick button_update handle_record_button
  by_cases hcp : c.countdown_played <;> by_cases hcue : (10:ℚ)⁻¹ < i.now - t1 <;>
    simp [hb, hps, hip, hs1, hs2, ha, hcp, hcue, hnotarm, just_pressed,
      just_released, hold_duration, startRecCount, is_rec_start]

/-- A held tick while already armed (in an arm state): the device state is
untouched and nothing fires again. -/
theorem record_tick_held_armed (c : RecCtrl) (i : TickIn)
    (hb : c.record_btn.is_pressed = true)
    (ha : c.record_armed = true)
    (hs : armState c.device_state.state)
    (hip : i.pressed = true) :
    (record_tick c i).1.device_state = c.device_state ∧
    (record_tick c i).1.record_armed = true ∧
    (record_tick c i).1.record_btn.is_pressed = true ∧
    (record_tick c i).1.record_btn.press_start_time = c.record_btn.press_start_time ∧
    startRecCount (record_tick c i).2 = 0 := by
  have hs1 : c.device_state.state ≠ State.idleNoChip := by
    rcases hs with h | h | h <;> simp [h]
  have hs2 : c.device_state.state ≠ State.recording := by
    rcases hs with h | h | h <;> simp [h]
  unfold record_tick button_update handle_record_button
  by_cases hcp : c.countdown_played <;>
    by_cases hcue : (10:ℚ)⁻¹ < i.now - c.record_btn.press_start_time <;>
      simp [hb, hip, hs1, hs2, ha, hcp, hcue, just_pressed, just_released,
        hold_duration, startRecCount, is_rec_start]

/-- A held tick in an arm state with a chip loaded, not yet armed, at or
past the threshold: start-recording fires exactly once, the tracker arms,
and the device moves to the recorder's outcome state. -/
theorem record_tick_held_fire (c : RecCtrl) (i : TickIn) (t1 : ℚ) (ch : ChipData)
    (hb : c.record_btn.is_pressed = true)
    (hps : c.record_btn.press_start_time = t1)
    (ha : c.record_armed = false)
    (hs : armState c.device_state.state)
    (hchip : c.device_state.loaded_chip = some ch)
    (hip : i.pressed = true)
    (hhigh : RECORD_HOLD_DURATION ≤ i.now - t1) :
    (record_tick c i).1.device_state = (action_start_recording c.device_state i.rec_ok).1 ∧
    (record_tick c i).1.record_armed = true ∧
    (record_tick c i).1.record_btn.is_pressed = true ∧
    (record_tick c i).1.record_btn.press_start_time = t1 ∧
    startRecCount (record_tick c i).2 = 1 := by
  have hs1 : c.device_state.state ≠ State.idleNoChip := by
    rcases hs with h | h | h <;> simp [h]
  have hs2 : c.device_state.state ≠ State.recording := by
    rcases hs with h | h | h <;> simp [h]
  have hcnt := start_recording_fires_once c.device_state ch i.rec_ok hchip
  unfold record_tick button_update handle_record_button
  by_cases hcp : c.countdown_played <;> by_cases hcue : (10:ℚ)⁻¹ < i.now - t1 <;>
    simp [hb, hps, hip, hs1, hs2, ha, hcp, hcue, hhigh, just_pressed,
      just_released, hold_duration, startRecCount, is_rec_start,
      List.countP_append, List.countP_cons] <;>
    simpa [startRecCount, is_rec_start] using hcnt

/-- A release tick from a state other than `IdleNoChip`: the device state
is untouched and nothing fires. -/
theorem record_tick_release (c : RecCtrl) (i : TickIn)
    (hb : c.record_btn.is_pressed = true)
    (hs1 : c.device_state.state ≠ State.idleNoChip)
    (hip : i.pressed = false) :
    (record_tick c i).1.device_state = c.device_state ∧
    startRecCount (record_tick c i).2 = 0 := by
  by_cases hs2 : c.device_state.state = State.recording
  · unfold record_tick button_update handle_record_button
    simp [hb, hip, hs1, hs2, just_pressed, startRecCount, is_rec_start]
  · unfold record_tick button_update handle_record_button
    by_cases ha : c.record_armed = false <;>
      by_cases hcp : c.countdown_played <;>
        simp [hb, hip, hs1, hs2, ha, hcp, just_pressed, just_released,
          startRecCount, is_rec_start]

theorem record_run_append (c : RecCtrl) (xs ys : List TickIn) :
    record_run c (xs ++ ys) =
      ((record_run (record_run c xs).1 ys).1,
       (record_run c xs).2 ++ (record_run (record_run c xs).1 ys).2) := by
  induction xs generalizing c with
  | nil => simp [record_run]
  | cons i rest ih => simp [record_run, ih, List.append_assoc]

/-- Running held ticks all below the threshold from an unarmed state:
nothing fires and the device state is untouched. -/
theorem record_run_held_low (t1 : ℚ) (rest : List TickIn) :
    ∀ c : RecCtrl,
      (∀ i ∈ rest, i.pressed = true ∧ i.now - t1 < RECORD_HOLD_DURATION) →
      c.record_btn.is_pressed = true →
      c.record_btn.press_start_time = t1 →
      c.record_armed = false →
      armState c.device_state.state →
      (record_run c rest).1.device_state = c.device_state ∧
      (record_run c rest).1.record_armed = false ∧
      (record_run c rest).1.record_btn.is_pressed = true ∧
      (record_run c rest).1.record_btn.press_start_time = t1 ∧
      startRecCount (record_run c rest).2 = 0 := by
  induction rest with
  | nil =>
    intro c _ hb hps ha _
    exact ⟨rfl, ha, hb, hps, rfl⟩
  | cons i rest ih =>
    intro c hall hb hps ha hs
    obtain ⟨hip, hlow⟩ := hall i (List.mem_cons_self i rest)
    obtain ⟨hdev, harm, hbp, hpsp, hcnt⟩ :=
      record_tick_held_low c i t1 hb hps ha hs hip hlow
    have hrec := ih (record_tick c i).1
      (fun j hj => hall j (List.mem_cons_of_mem i hj)) hbp hpsp harm
      (by rw [hdev]; exact hs)
    simp only [record_run]
    refine ⟨hrec.1.trans hdev, hrec.2.1, hrec.2.2.1, hrec.2.2.2.1, ?_⟩
    have h2 := hrec.2.2.2.2
    simp only [startRecCount, List.countP_append] at hcnt h2 ⊢
    omega

/-- Running held ticks from an already-armed state (device in `Recording`
or one of the arm states): nothing fires again and the device state is
untouched. -/
theorem record_run_held_armed (rest : List TickIn) :
    ∀ c : RecCtrl,
      (∀ i ∈ rest, i.pressed = true) →
      c.record_btn.is_pressed = true →
      c.record_armed = true →
      (c.device_state.state = State.recording ∨ armState c.device_state.state) →
      (record_run c rest).1.device_state = c.device_state ∧
      (record_run c rest).1.record_btn.is_pressed = true ∧
      startRecCount (record_run c rest).2 = 0 := by
  induction rest with
  | nil =>
    intro c _ hb _ _
    exact ⟨rfl, hb, rfl⟩
  | cons i rest ih =>
    intro c hall hb ha hs
    have hip := hall i (List.mem_cons_self i rest)
    rcases hs with hsr | hsa
    · have ht := record_tick_held_recording c i hb hsr hip
      have hrec := ih (record_tick c i).1
        (fun j hj => hall j (List.mem_cons_of_mem i hj))
        (by rw [ht]) (by rw [ht]; exact ha) (by rw [ht]; exact Or.inl hsr)
      simp only [record_run]
      refine ⟨hrec.1.trans (by rw [ht]), hrec.2.1, ?_⟩
      have h2 := hrec.2.2
      have hevs : (record_tick c i).2 = [] := by rw [ht]
      simp only [startRecCount, List.countP_append, hevs, List.countP_nil] at h2 ⊢
      omega
    · obtain ⟨hdev, harm, hbp, _, hcnt⟩ :=
        record_tick_held_armed c i hb ha hsa hip
      have hrec := ih (record_tick c i).1
        (fun j hj => hall j (List.mem_cons_of_mem i hj)) hbp harm
        (by rw [hdev]; exact Or.inr hsa)
      simp only [record_run]
      refine ⟨hrec.1.trans hdev, hrec.2.1, ?_⟩
      have h2 := hrec.2.2
      simp only [startRecCount, List.countP_append] at hcnt h2 ⊢
      omega

/-- Running held ticks from an unarmed arm state with a chip loaded, where
some tick reaches the threshold: start-recording fires exactly once. -/
theorem record_run_held_fire (t1 : ℚ) (ch : ChipData) (rest : List TickIn) :
    ∀ c : RecCtrl,
      (∀ i ∈ rest, i.pressed = true) →
      c.record_btn.is_pressed = true →
      c.record_btn.press_start_time = t1 →
      c.record_armed = false →
      armState c.device_state.state →
      c.device_state.loaded_chip = some ch →
      (∃ i ∈ rest, RECORD_HOLD_DURATION ≤ i.now - t1) →
      (record_run c rest).1.record_btn.is_pressed = true ∧
      (record_run c rest).1.device_state.state ≠ State.idleNoChip ∧
      startRecCount (record_run c rest).2 = 1 := by
  induction rest with
  | nil =>
    intro c _ _ _ _ _ _ hex
    exact absurd hex (by simp)
  | cons i rest ih =>
    intro c hall hb hps ha hs hchip hex
    have hip := hall i (List.mem_cons_self i rest)
    by_cases hhigh : RECORD_HOLD_DURATION ≤ i.now - t1
    · obtain ⟨hdev, harm, hbp, _, hcnt⟩ :=
        record_tick_held_fire c i t1 ch hb hps ha hs hchip hip hhigh
      have hstate4 : (record_tick c i).1.device_state.state = State.recording ∨
          armState (record_tick c i).1.device_state.state := by
        rw [hdev]
        rcases start_recording_state_cases c.device_state i.rec_ok with h | h
        · exact Or.inl h
        · exact Or.inr (by rw [h]; exact hs)
      have hrun := record_run_held_armed rest (record_tick c i).1
        (fun j hj => hall j (List.mem_cons_of_mem i hj)) hbp harm hstate4
      simp only [record_run]
      refine ⟨hrun.2.1, ?_, ?_⟩
      · rw [hrun.1]
        rcases hstate4 with h | h
        · rw [h]; exact fun hcon => State.noConfusion hcon
        · rcases h with h | h | h <;> rw [h] <;> exact fun hcon => State.noConfusion hcon
      · have h2 := hrun.2.2
        simp only [startRecCount, List.countP_append] at hcnt h2 ⊢
        omega
    · have hlow : i.now - t1 < RECORD_HOLD_DURATION := not_le.mp hhigh
      obtain ⟨hdev, harm, hbp, hpsp, hcnt⟩ :=
        record_tick_held_low c i t1 hb hps ha hs hip hlow
      have hex2 : ∃ j ∈ rest, RECORD_HOLD_DURATION ≤ j.now - t1 := by
        rcases hex with ⟨j, hj, h5⟩
        rcases List.mem_cons.mp hj with rfl | hj2
        · exact absurd h5 hhigh
        · exact ⟨j, hj2, h5⟩
      have hrec := ih (record_tick c i).1
        (fun j hj => hall j (List.mem_cons_of_mem i hj)) hbp hpsp harm
        (by rw [hdev]; exact hs) (by rw [hdev]; exact hchip) hex2
      simp only [record_run]
      refine ⟨hrec.1, hrec.2.1, ?_⟩
      have h2 := hrec.2.2
      simp only [startRecCount, List.countP_append] at hcnt h2 ⊢
      omega

theorem armState_ne_idle {s : State} (h : armState s) : s ≠ State.idleNoChip := by
  rcases h with h | h | h <;> (rw [h]; exact fun hc => State.noConfusion hc)

theorem armState_ne_recording {s : State} (h : armState s) : s ≠ State.recording := by
  rcases h with h | h | h <;> (rw [h]; exact fun hc => State.noConfusion hc)

/-- C9 (amended): a record-button press cycle in `IdleChipLoaded`,
`Playing` or `Paused` with a chip loaded: released before the arm
threshold, start-recording never fires and the device state is unchanged;
once some held tick reaches the threshold, start-recording fires exactly
once within the held ticks — without waiting for release and no matter how
many more ticks stay held — and exactly once over the whole cycle. -/
theorem record_hold_to_arm_fires_once
    (dev0 : DeviceState) (ch : ChipData) (btn0 : ButtonState) (cp0 : Bool)
    (first : TickIn) (rest : List TickIn) (rel : TickIn)
    (hs : armState dev0.state)
    (hchip : dev0.loaded_chip = some ch)
    (hb0 : btn0.is_pressed = false)
    (hf : first.pressed = true)
    (hrest : ∀ i ∈ rest, i.pressed = true)
    (hrel : rel.pressed = false) :
    ((∀ i ∈ rest, i.now - first.now < RECORD_HOLD_DURATION) →
      startRecCount (record_run ⟨dev0, btn0, false, cp0⟩ (first :: (rest ++ [rel]))).2 = 0 ∧
      (record_run ⟨dev0, btn0, false, cp0⟩ (first :: (rest ++ [rel]))).1.device_state = dev0) ∧
    ((∃ i ∈ rest, RECORD_HOLD_DURATION ≤ i.now - first.now) →
      startRecCount (record_run ⟨dev0, btn0, false, cp0⟩ (first :: rest)).2 = 1 ∧
      startRecCount (record_run ⟨dev0, btn0, false, cp0⟩ (first :: (rest ++ [rel]))).2 = 1) := by
  have hfirst := record_tick_first ⟨dev0, btn0, false, cp0⟩ first hb0
    (armState_ne_idle hs) (armState_ne_recording hs) hf
  have hbp1 : (record_tick ⟨dev0, btn0, false, cp0⟩ first).1.record_btn.is_pressed = true := by
    rw [hfirst]
  have hps1 : (record_tick ⟨dev0, btn0, false, cp0⟩ first).1.record_btn.press_start_time
      = first.now := by
    rw [hfirst]
  have harm1 : (record_tick ⟨dev0, btn0, false, cp0⟩ first).1.record_armed = false := by
    rw [hfirst]
  have hdev1 : (record_tick ⟨dev0, btn0, false, cp0⟩ first).1.device_state = dev0 := by
    rw [hfirst]
  have hcnt0 : startRecCount (record_tick ⟨dev0, btn0, false, cp0⟩ first).2 = 0 := by
    rw [hfirst]; rfl
  constructor
  · intro hlowAll
    obtain ⟨hdev, harm, hbp, hpsp, hcnt⟩ :=
      record_run_held_low first.now rest _ (fun i hi => ⟨hrest i hi, hlowAll i hi⟩)
        hbp1 hps1 harm1 (by rw [hdev1]; exact hs)
    obtain ⟨hreldev, hrelcnt⟩ := record_tick_release _ rel hbp
      (by rw [hdev, hdev1]; exact armState_ne_idle hs) hrel
    constructor
    · simp only [record_run, record_run_append, startRecCount, List.countP_append,
        List.countP_nil] at hcnt0 hcnt hrelcnt ⊢
      omega
    · simp only [record_run, record_run_append]
      rw [hreldev, hdev, hdev1]
  · intro hex
    obtain ⟨hbpF, hstF, hcntF⟩ :=
      record_run_held_fire first.now ch rest _ hrest hbp1 hps1 harm1
        (by rw [hdev1]; exact hs) (by rw [hdev1]; exact hchip) hex
    obtain ⟨hreldev, hrelcnt⟩ := record_tick_release _ rel hbpF hstF hrel
    constructor
    · simp only [record_run, startRecCount, List.countP_append,
        List.countP_nil] at hcnt0 hcntF ⊢
      omega
    · simp only [record_run, record_run_append, startRecCount, List.countP_append,
        List.countP_nil] at hcnt0 hcntF hrelcnt ⊢
      omega

/-- A device with a chip loaded, idle. -/
def dsChipLoaded : DeviceState :=
  { state := State.idleChipLoaded
    loaded_chip := some chip0
    was_playing_before_recording := false
    previous_state := none }

theorem record_hold_to_arm_fires_once_witness :
    startRecCount (record_run ⟨dsChipLoaded, ⟨false, 0, false⟩, false, false⟩
      [⟨true, 0, true, none⟩, ⟨true, 6, true, none⟩, ⟨false, 7, true, none⟩]).2 = 1 :=
  (record_hold_to_arm_fires_once dsChipLoaded chip0 ⟨false, 0, false⟩ false
    ⟨true, 0, true, none⟩ [⟨true, 6, true, none⟩] ⟨false, 7, true, none⟩
    (by decide) rfl rfl rfl
    (by intro i hi; rcases List.mem_cons.mp hi with rfl | hcon
        · rfl
        · cases hcon)
    rfl).2
    ⟨⟨true, 6, true, none⟩, List.Mem.head _, by norm_num [RECORD_HOLD_DURATION]⟩ |>.2

/-- C9 counterexample: with no chip loaded (`IdleNoChip`, which is outside
`Recording`), holding the record button past the arm threshold never fires
start-recording — the handler returns before the hold-to-arm logic. -/
theorem record_arm_never_fires_in_idle_no_chip :
    RECORD_HOLD_DURATION ≤ (6:ℚ) - 0 ∧
    startRecCount (record_run ⟨dsIdle, ⟨false, 0, false⟩, false, false⟩
      [⟨true, 0, true, none⟩, ⟨true, 6, true, none⟩, ⟨false, 7, true, none⟩]).2 = 0 := by
  constructor
  · norm_num [RECORD_HOLD_DURATION]
  · simp [record_run, record_tick, handle_record_button, button_update,
      just_released, dsIdle, startRecCount, is_rec_start]

end SmartSpeaker
